import Mathlib

/-!
Verification of the srv-mon monitoring control plane: a shallow embedding of
the group-scoped authorization engine, the membership directory and the
notification dispatch engine, translated from the Next.js route handlers and
the prisma data model, together with theorems settling the specified
properties. Database state is passed explicitly; each prisma call becomes a
pure query or update on that state. Opaque uuid identifiers are modelled as
natural numbers drawn from a fresh-id counter.
-/

namespace SrvMon

/-- Global user roles, from `enum UserRole` in prisma/schema.prisma. -/
inductive UserRole
  | SUPER_ADMIN
  | ADMIN
  | USER
deriving DecidableEq, Repr

/-- Per-group membership roles, from `enum GroupRole` in prisma/schema.prisma. -/
inductive GroupRole
  | ADMIN
  | MEMBER
deriving DecidableEq, Repr

/-- Delivery channel types, from `enum NotificationChannelType` in prisma/schema.prisma. -/
inductive ChannelType
  | EMAIL
  | WEBHOOK
deriving DecidableEq, Repr

/-- Notification dispatch statuses, as in the history page's
`type NotificationStatus = "PENDING" | "SENT" | "FAILED"`. -/
inductive NotificationStatus
  | PENDING
  | SENT
  | FAILED
deriving DecidableEq, Repr

/-- Event severity levels, from the send-route zod schema. -/
inductive Level
  | INFO
  | WARNING
  | ERROR
deriving DecidableEq, Repr

/-- A row of the `User` model. Password hashing is abstracted: the stored
credential is kept as an opaque string (credentials are out of scope). -/
structure User where
  id : Nat
  email : String
  name : String
  password : String
  role : UserRole
deriving DecidableEq, Repr

/-- A row of the `Group` model. -/
structure Group where
  id : Nat
  name : String
  description : String
deriving DecidableEq, Repr

/-- A row of the `GroupUser` model: one membership of a user in a group. -/
structure GroupUser where
  id : Nat
  userId : Nat
  groupId : Nat
  role : GroupRole
deriving DecidableEq, Repr

/-- A row of the `Server` model; `groupIds` is the many-to-many `groups`
relation of the server. -/
structure Server where
  id : Nat
  name : String
  createdById : Nat
  groupIds : List Nat
deriving DecidableEq, Repr

/-- A row of the `Probe` model (only the fields the probe-listing route
returns are needed here). -/
structure Probe where
  id : Nat
  name : String
  serverId : Nat
deriving DecidableEq, Repr

/-- A row of the `NotificationConfig` model. -/
structure NotificationConfig where
  id : Nat
  name : String
  groupId : Nat
  type : ChannelType
deriving DecidableEq, Repr

/-- A row of the `EmailNotification` sub-config model. -/
structure EmailNotification where
  id : Nat
  notificationConfigId : Nat
  recipients : List String
deriving DecidableEq, Repr

/-- A row of the `WebhookNotification` sub-config model. JSON objects
(headers, payload template) are modelled as association lists. -/
structure WebhookNotification where
  id : Nat
  notificationConfigId : Nat
  url : String
  headers : List (String × String)
  payload : List (String × String)
deriving DecidableEq, Repr

/-- Modelled from the spec: the `Notification` model is absent from the
provided prisma schema; only its callers (the send route and the history
page) are in the sources. Per spec sections 3 and 4.3 a dispatch attempt row
starts in status PENDING and is driven to the terminal SENT or FAILED;
`sentAt` records whether the sent timestamp was set (wall-clock time is out
of scope), `statusDetails` the human-readable failure detail. -/
structure Notification where
  id : Nat
  serverId : Nat
  probeId : Option Nat
  title : String
  message : String
  level : Level
  notificationConfigId : Nat
  status : NotificationStatus
  statusDetails : Option String
  sentAt : Bool
deriving DecidableEq, Repr

/-- The persistent state: one field per prisma table touched by the embedded
handlers, plus the fresh-id counter standing for uuid generation. -/
structure DB where
  nextId : Nat
  users : List User
  groups : List Group
  groupUsers : List GroupUser
  servers : List Server
  probes : List Probe
  notificationConfigs : List NotificationConfig
  emailConfigs : List EmailNotification
  webhookConfigs : List WebhookNotification
  notifications : List Notification
deriving DecidableEq, Repr

/-- The empty database (no rows, counter at 1). -/
def emptyDB : DB :=
  { nextId := 1, users := [], groups := [], groupUsers := [], servers := [],
    probes := [], notificationConfigs := [], emailConfigs := [],
    webhookConfigs := [], notifications := [] }

/-- An authenticated session token: `session.user.id` and `session.user.role`.
Handlers receive `Option Session`; `none` is the unauthenticated 401 case. -/
structure Session where
  userId : Nat
  role : UserRole
deriving DecidableEq, Repr

/-- JavaScript object spread `\x7b ...a, ...b \x7d` on association lists: the
keys of `a` in order, each overridden by `b`'s value when `b` also has the
key, followed by the keys of `b` that are not in `a`. -/
def spreadMerge {V : Type} (a b : List (String × V)) : List (String × V) :=
  a.map (fun p => match b.lookup p.1 with | some v => (p.1, v) | none => p)
    ++ b.filter (fun p => (a.lookup p.1).isNone)

/-- The outgoing HTTP request built by the webhook channel adapter. -/
structure WebhookRequest where
  url : String
  method : String
  headers : List (String × String)
  body : List (String × String)
deriving DecidableEq, Repr

/-- From `sendWebhook` in src/app/api/notifications/send/route.ts: the
delivered payload is the stored payload template spread-merged with the live
notification data, posted with a Content-Type header that the stored headers
are spread onto. -/
def sendWebhook (url : String) (headers : List (String × String))
    (payloadTemplate notificationData : List (String × String)) : WebhookRequest :=
  { url := url, method := "POST",
    headers := spreadMerge [("Content-Type", "application/json")] headers,
    body := spreadMerge payloadTemplate notificationData }

theorem lookup_mapOverride {V : Type} (a b : List (String × V)) (k : String) :
    (a.map (fun p => match b.lookup p.1 with | some v => (p.1, v) | none => p)).lookup k
      = match a.lookup k with
        | none => none
        | some w => match b.lookup k with | some v => some v | none => some w := by
  induction a with
  | nil => simp [List.lookup]
  | cons hd tl ih =>
    obtain ⟨k', v'⟩ := hd
    by_cases hk : k = k'
    · subst hk
      cases hb : b.lookup k <;> simp [List.lookup, hb]
    · have hbeq : (k == k') = false := by simp [hk]
      cases hb : b.lookup k' <;> simp [List.lookup, hbeq, hb, ih]

theorem lookup_append_match {V : Type} (xs ys : List (String × V)) (k : String) :
    (xs ++ ys).lookup k
      = match xs.lookup k with | some v => some v | none => ys.lookup k := by
  induction xs with
  | nil => simp [List.lookup]
  | cons hd tl ih =>
    by_cases hk : k = hd.1
    · subst hk; simp [List.lookup]
    · have hbeq : (k == hd.1) = false := by simp [hk]
      simp [List.lookup, hbeq, ih]

theorem lookup_filter_keyPred {V : Type} (p : String → Bool) (b : List (String × V))
    (k : String) (hp : p k = true) :
    (b.filter (fun q => p q.1)).lookup k = b.lookup k := by
  induction b with
  | nil => simp
  | cons hd tl ih =>
    by_cases hk : k = hd.1
    · subst hk
      simp [List.filter, hp, List.lookup, ih]
    · have hbeq : (k == hd.1) = false := by simp [hk]
      cases hphd : p hd.1 <;> simp [List.filter, hphd, List.lookup, hbeq, ih]

theorem spreadMerge_lookup {V : Type} (a b : List (String × V)) (k : String) :
    (spreadMerge a b).lookup k = (b.lookup k).or (a.lookup k) := by
  unfold spreadMerge
  rw [lookup_append_match, lookup_mapOverride]
  cases ha : a.lookup k with
  | some w => cases hb : b.lookup k <;> simp [ha, hb, Option.or]
  | none =>
    have hfilter : (b.filter (fun q => (a.lookup q.1).isNone)).lookup k = b.lookup k :=
      lookup_filter_keyPred (fun key => (a.lookup key).isNone) b k (by simp [ha])
    cases hb : b.lookup k <;> simp [ha, hb, hfilter, Option.or]

/-- Claim C9: for every WEBHOOK dispatch the delivered body is the stored
payload template merged with the live event fields, and on any key collision
the live event field's value wins; keys missing from the live fields fall
back to the template's value. -/
theorem C9_webhook_merge_live_precedence (url : String)
    (headers payloadTemplate notificationData : List (String × String)) (k : String) :
    (sendWebhook url headers payloadTemplate notificationData).body
        = spreadMerge payloadTemplate notificationData ∧
    (sendWebhook url headers payloadTemplate notificationData).body.lookup k
        = (notificationData.lookup k).or (payloadTemplate.lookup k) := by
  exact ⟨rfl, spreadMerge_lookup payloadTemplate notificationData k⟩

/-- Input of the public registration endpoint (its zod `registerSchema` shape
checks on name, email format and password length are presentational and the
400 path they guard is not involved in any claim, so they are omitted). -/
structure RegisterInput where
  name : String
  email : String
  password : String
deriving DecidableEq, Repr

/-- Response of the registration endpoint. -/
structure RegisterResponse where
  status : Nat
  user : Option User
  isFirstUser : Bool
deriving DecidableEq, Repr

/-- The public registration handler, from the register route: rejects a
duplicate email with 409; otherwise creates the account with role
SUPER_ADMIN when the user table is empty and USER otherwise, and for the
first account also creates the default group with the account as its ADMIN
member. -/
def registerPOST (db : DB) (input : RegisterInput) : RegisterResponse × DB :=
  match db.users.find? (fun u => u.email == input.email) with
  | some _ => (⟨409, none, false⟩, db)
  | none =>
    let userCount := db.users.length
    let isFirstUser := userCount == 0
    let user : User :=
      { id := db.nextId, email := input.email, name := input.name,
        password := input.password,
        role := if isFirstUser then UserRole.SUPER_ADMIN else UserRole.USER }
    let db1 := { db with nextId := db.nextId + 1, users := db.users ++ [user] }
    if isFirstUser then
      let defaultGroup : Group :=
        { id := db1.nextId, name := "Groupe principal",
          description := "Groupe par défaut créé à l'initialisation du système" }
      let db2 := { db1 with nextId := db1.nextId + 1, groups := db1.groups ++ [defaultGroup] }
      let membership : GroupUser :=
        { id := db2.nextId, userId := user.id, groupId := defaultGroup.id,
          role := GroupRole.ADMIN }
      let db3 :=
        { db2 with
            nextId := db2.nextId + 1,
            groupUsers := db2.groupUsers ++ [membership] }
      (⟨201, some user, true⟩, db3)
    else
      (⟨201, some user, false⟩, db1)

/-- Claim C10: registering into an empty user table creates a SUPER_ADMIN
account and a default group whose sole membership is that account as ADMIN;
registering into a non-empty table creates a USER account regardless of the
request's content (the registration input carries no role at all). -/
theorem C10_first_user_bootstrap (db : DB) (input : RegisterInput) :
    (db.users = [] →
      ∃ u g m,
        registerPOST db input
          = (⟨201, some u, true⟩,
             { db with
                 nextId := db.nextId + 3,
                 users := [u],
                 groups := db.groups ++ [g],
                 groupUsers := db.groupUsers ++ [m] }) ∧
        u.role = UserRole.SUPER_ADMIN ∧
        m.userId = u.id ∧ m.groupId = g.id ∧ m.role = GroupRole.ADMIN ∧
        ((∀ gu ∈ db.groupUsers, gu.groupId < db.nextId) →
          ((registerPOST db input).2.groupUsers.filter
              (fun gu => gu.groupId == g.id)) = [m])) ∧
    (db.users ≠ [] →
      ∀ resp db', registerPOST db input = (resp, db') →
        ∀ u, resp.user = some u → u.role = UserRole.USER) := by
  constructor
  · intro hempty
    refine ⟨⟨db.nextId, input.email, input.name, input.password, UserRole.SUPER_ADMIN⟩,
      ⟨db.nextId + 1, "Groupe principal",
        "Groupe par défaut créé à l'initialisation du système"⟩,
      ⟨db.nextId + 2, db.nextId, db.nextId + 1, GroupRole.ADMIN⟩, ?_, rfl, rfl, rfl, rfl, ?_⟩
    · simp [registerPOST, hempty]
    · intro hfresh
      have hrun : (registerPOST db input).2.groupUsers
          = db.groupUsers ++ [⟨db.nextId + 2, db.nextId, db.nextId + 1, GroupRole.ADMIN⟩] := by
        simp [registerPOST, hempty]
      rw [hrun, List.filter_append]
      have hold : db.groupUsers.filter (fun gu => gu.groupId == db.nextId + 1) = [] := by
        rw [List.filter_eq_nil_iff]
        intro gu hgu
        have := hfresh gu hgu
        simp only [beq_iff_eq]
        omega
      rw [hold]
      simp
  · intro hne resp db' hrun u hu
    match hfind : db.users.find? (fun w => w.email == input.email) with
    | some w =>
      rw [registerPOST, hfind] at hrun
      cases hrun
      simp at hu
    | none =>
      have hcount : (db.users.length == 0) = false := by
        simp [List.length_eq_zero]
        exact hne
      rw [registerPOST, hfind] at hrun
      simp only [hcount] at hrun
      simp only [if_neg (by simp : ¬((false : Bool) = true))] at hrun
      cases hrun
      simp at hu
      subst hu
      rfl

/-- Witness for C10: the first registration into the empty database yields a
SUPER_ADMIN with a sole-admin default group, and the next registration
yields a USER. -/
theorem C10_first_user_bootstrap_witness :
    (∃ u g m,
        registerPOST emptyDB ⟨"Alice Admin", "alice@example.com", "password123"⟩
          = (⟨201, some u, true⟩,
             { emptyDB with
                 nextId := emptyDB.nextId + 3,
                 users := [u],
                 groups := emptyDB.groups ++ [g],
                 groupUsers := emptyDB.groupUsers ++ [m] }) ∧
        u.role = UserRole.SUPER_ADMIN ∧
        m.userId = u.id ∧ m.groupId = g.id ∧ m.role = GroupRole.ADMIN ∧
        ((∀ gu ∈ emptyDB.groupUsers, gu.groupId < emptyDB.nextId) →
          ((registerPOST emptyDB ⟨"Alice Admin", "alice@example.com", "password123"⟩).2.groupUsers.filter
              (fun gu => gu.groupId == g.id)) = [m])) ∧
    (∀ resp db',
      registerPOST
          (registerPOST emptyDB ⟨"Alice Admin", "alice@example.com", "password123"⟩).2
          ⟨"Bob", "bob@example.com", "hunter2aa"⟩ = (resp, db') →
        ∀ u, resp.user = some u → u.role = UserRole.USER) := by
  constructor
  · exact (C10_first_user_bootstrap emptyDB
      ⟨"Alice Admin", "alice@example.com", "password123"⟩).1 (by decide)
  · exact (C10_first_user_bootstrap
      (registerPOST emptyDB ⟨"Alice Admin", "alice@example.com", "password123"⟩).2
      ⟨"Bob", "bob@example.com", "hunter2aa"⟩).2 (by decide)

/-- From `checkServerAccess` in the probes route: SUPER_ADMIN always passes;
otherwise the server is looked up (a missing server yields false, not a
distinct not-found outcome) and access requires at least one membership of
the user in one of the server's groups. -/
def checkServerAccess (db : DB) (userId serverId : Nat) (superAdmin : Bool) : Bool :=
  if superAdmin then true
  else
    match db.servers.find? (fun s => s.id == serverId) with
    | none => false
    | some server =>
      let serverGroupIds := server.groupIds
      let userGroupsCount :=
        (db.groupUsers.filter
          (fun gu => gu.userId == userId && serverGroupIds.contains gu.groupId)).length
      decide (userGroupsCount > 0)

/-- Response of the probe-listing route. -/
structure ProbesResponse where
  status : Nat
  probes : List Probe
deriving DecidableEq, Repr

/-- The GET handler of the probes route: 401 unauthenticated, 403 when
`checkServerAccess` denies, otherwise 200 with the server's probes. The
route has no 404 branch at all. -/
def probesGET (db : DB) (session : Option Session) (serverId : Nat) : ProbesResponse :=
  match session with
  | none => ⟨401, []⟩
  | some s =>
    if checkServerAccess db s.userId serverId (s.role == UserRole.SUPER_ADMIN) then
      ⟨200, db.probes.filter (fun p => p.serverId == serverId)⟩
    else ⟨403, []⟩

/-- From `checkNotificationAccess` in the notification-config route:
SUPER_ADMIN always passes; otherwise the config is looked up (a missing
config yields false) and access requires a membership in its group. -/
def checkNotificationAccess (db : DB) (notificationId userId : Nat)
    (isSuperAdmin : Bool) : Bool :=
  if isSuperAdmin then true
  else
    match db.notificationConfigs.find? (fun c => c.id == notificationId) with
    | none => false
    | some cfg =>
      (db.groupUsers.find?
        (fun gu => gu.userId == userId && gu.groupId == cfg.groupId)).isSome

/-- Response of the notification-config GET route. -/
structure NotifGetResponse where
  status : Nat
  config : Option NotificationConfig
deriving DecidableEq, Repr

/-- The GET handler of the notification-config route: 401, then 403 when
`checkNotificationAccess` denies, then 404 when the config is missing
(reachable only by SUPER_ADMIN), else 200 with the config. -/
def notificationGET (db : DB) (session : Option Session) (notificationId : Nat) :
    NotifGetResponse :=
  match session with
  | none => ⟨401, none⟩
  | some s =>
    if !(checkNotificationAccess db notificationId s.userId
          (s.role == UserRole.SUPER_ADMIN)) then
      ⟨403, none⟩
    else
      match db.notificationConfigs.find? (fun c => c.id == notificationId) with
      | none => ⟨404, none⟩
      | some cfg => ⟨200, some cfg⟩

/-- Counterexample to claim C1: in a database holding no notification config
with id 5, an authenticated non-SUPER_ADMIN request for config 5 is answered
with 403 AccessDenied, not 404 NotFound, although the resource does not
exist — so a request for a non-existent resource can yield AccessDenied. -/
theorem C1_counterexample :
    emptyDB.notificationConfigs.find? (fun c => c.id == 5) = none ∧
    (notificationGET emptyDB (some ⟨1, UserRole.USER⟩) 5).status = 403 ∧
    (403 : Nat) ≠ 404 := by decide

/-- Claim C1 as amended: for an authenticated actor, an existing resource the
actor lacks rights to yields AccessDenied (403); but a non-existent resource
also yields AccessDenied (403) whenever the caller is not SUPER_ADMIN —
NotFound (404) for a missing notification config is returned only to
SUPER_ADMIN callers, and the probe route returns 200 with an empty list to a
SUPER_ADMIN for a missing server. -/
theorem C1_amended (db : DB) (s : Session) (nid sid : Nat) :
    (∀ cfg, db.notificationConfigs.find? (fun c => c.id == nid) = some cfg →
      s.role ≠ UserRole.SUPER_ADMIN →
      (∀ gu ∈ db.groupUsers, ¬(gu.userId = s.userId ∧ gu.groupId = cfg.groupId)) →
      (notificationGET db (some s) nid).status = 403) ∧
    (db.notificationConfigs.find? (fun c => c.id == nid) = none →
      s.role ≠ UserRole.SUPER_ADMIN →
      (notificationGET db (some s) nid).status = 403) ∧
    (db.notificationConfigs.find? (fun c => c.id == nid) = none →
      s.role = UserRole.SUPER_ADMIN →
      (notificationGET db (some s) nid).status = 404) ∧
    (∀ server, db.servers.find? (fun srv => srv.id == sid) = some server →
      s.role ≠ UserRole.SUPER_ADMIN →
      (∀ gu ∈ db.groupUsers, ¬(gu.userId = s.userId ∧ gu.groupId ∈ server.groupIds)) →
      (probesGET db (some s) sid).status = 403) ∧
    (db.servers.find? (fun srv => srv.id == sid) = none →
      s.role ≠ UserRole.SUPER_ADMIN →
      (probesGET db (some s) sid).status = 403) ∧
    (db.servers.find? (fun srv => srv.id == sid) = none →
      s.role = UserRole.SUPER_ADMIN →
      (probesGET db (some s) sid).status = 200) := by
  have hsa : ∀ r : UserRole, r ≠ UserRole.SUPER_ADMIN → (r == UserRole.SUPER_ADMIN) = false := by
    intro r hr; simp [hr]
  refine ⟨?_, ?_, ?_, ?_, ?_, ?_⟩
  · intro cfg hcfg hrole hmem
    have hfind : db.groupUsers.find?
        (fun gu => gu.userId == s.userId && gu.groupId == cfg.groupId) = none := by
      rw [List.find?_eq_none]
      intro gu hgu
      have hm := hmem gu hgu
      simp only [Bool.and_eq_true, beq_iff_eq, not_and] at hm ⊢
      exact hm
    have hcheck : checkNotificationAccess db nid s.userId (s.role == UserRole.SUPER_ADMIN) = false := by
      rw [checkNotificationAccess, hsa s.role hrole, if_neg (by simp), hcfg]
      simp [hfind]
    simp [notificationGET, hcheck]
  · intro hnone hrole
    have hcheck : checkNotificationAccess db nid s.userId (s.role == UserRole.SUPER_ADMIN) = false := by
      rw [checkNotificationAccess, hsa s.role hrole, if_neg (by simp), hnone]
    simp [notificationGET, hcheck]
  · intro hnone hrole
    have hcheck : checkNotificationAccess db nid s.userId (s.role == UserRole.SUPER_ADMIN) = true := by
      rw [checkNotificationAccess, hrole]
      simp
    simp [notificationGET, hcheck, hnone]
  · intro server hserver hrole hmem
    have hcheck : checkServerAccess db s.userId sid (s.role == UserRole.SUPER_ADMIN) = false := by
      rw [checkServerAccess, hsa s.role hrole, if_neg (by simp), hserver]
      simp only [decide_eq_false_iff_not, not_lt, Nat.le_zero, List.length_eq_zero,
        List.filter_eq_nil_iff]
      intro gu hgu
      have hm := hmem gu hgu
      simp only [not_and] at hm
      simp only [Bool.and_eq_true, beq_iff_eq, not_and]
      intro h1 h2
      exact hm h1 (by simpa using h2)
    simp [probesGET, hcheck]
  · intro hnone hrole
    have hcheck : checkServerAccess db s.userId sid (s.role == UserRole.SUPER_ADMIN) = false := by
      rw [checkServerAccess, hsa s.role hrole, if_neg (by simp), hnone]
    simp [probesGET, hcheck]
  · intro hnone hrole
    have hcheck : checkServerAccess db s.userId sid (s.role == UserRole.SUPER_ADMIN) = true := by
      rw [checkServerAccess, hrole]
      simp
    simp [probesGET, hcheck]

/-- A concrete database exercising the C1 access paths: Alice is the
SUPER_ADMIN, Bob is a plain user who belongs only to group 3, config 10
lives in group 2 and server 20 is attached to group 3. -/
def dbC1 : DB :=
  { emptyDB with
      nextId := 100,
      users := [⟨1, "a@x.com", "Alice", "pw", UserRole.SUPER_ADMIN⟩,
                ⟨2, "b@x.com", "Bob", "pw", UserRole.USER⟩],
      groups := [⟨2, "G", ""⟩, ⟨3, "H", ""⟩],
      groupUsers := [⟨50, 2, 3, GroupRole.MEMBER⟩],
      servers := [⟨20, "srv", 1, [3]⟩],
      notificationConfigs := [⟨10, "cfg", 2, ChannelType.EMAIL⟩] }

/-- Witness for the amended C1, evaluating every conjunct on `dbC1`. -/
theorem C1_amended_witness :
    (notificationGET dbC1 (some ⟨2, UserRole.USER⟩) 10).status = 403 ∧
    (notificationGET dbC1 (some ⟨2, UserRole.USER⟩) 99).status = 403 ∧
    (notificationGET dbC1 (some ⟨1, UserRole.SUPER_ADMIN⟩) 99).status = 404 ∧
    (probesGET dbC1 (some ⟨4, UserRole.USER⟩) 20).status = 403 ∧
    (probesGET dbC1 (some ⟨4, UserRole.USER⟩) 99).status = 403 ∧
    (probesGET dbC1 (some ⟨1, UserRole.SUPER_ADMIN⟩) 99).status = 200 := by
  refine ⟨?_, ?_, ?_, ?_, ?_, ?_⟩
  · exact (C1_amended dbC1 ⟨2, UserRole.USER⟩ 10 0).1 ⟨10, "cfg", 2, ChannelType.EMAIL⟩
      (by decide) (by decide) (by decide)
  · exact (C1_amended dbC1 ⟨2, UserRole.USER⟩ 99 0).2.1 (by decide) (by decide)
  · exact (C1_amended dbC1 ⟨1, UserRole.SUPER_ADMIN⟩ 99 0).2.2.1 (by decide) (by decide)
  · exact (C1_amended dbC1 ⟨4, UserRole.USER⟩ 0 20).2.2.2.1 ⟨20, "srv", 1, [3]⟩
      (by decide) (by decide) (by decide)
  · exact (C1_amended dbC1 ⟨4, UserRole.USER⟩ 0 99).2.2.2.2.1 (by decide) (by decide)
  · exact (C1_amended dbC1 ⟨1, UserRole.SUPER_ADMIN⟩ 0 99).2.2.2.2.2 (by decide) (by decide)

/-- From `checkGroupAdmin` in the group-members routes: the caller's global
role is read from the users table (SUPER_ADMIN always passes); otherwise the
caller must hold an ADMIN membership in the group. -/
def checkGroupAdmin (db : DB) (groupId userId : Nat) : Bool :=
  if (db.users.find? (fun u => u.id == userId)).any
      (fun u => u.role == UserRole.SUPER_ADMIN) then true
  else
    (db.groupUsers.find?
      (fun gu => gu.userId == userId && gu.groupId == groupId
                   && gu.role == GroupRole.ADMIN)).isSome

/-- Response of the member role-update and member-removal routes. -/
structure MemberUpdateResponse where
  status : Nat
  member : Option GroupUser
deriving DecidableEq, Repr

/-- The PUT handler of the member route: 401, 403 unless the caller is a
group admin, 404 when the member row is missing, 403 when a non-SUPER_ADMIN
tries to change a SUPER_ADMIN's membership, 400 when demoting the group's
last ADMIN to MEMBER, else the role is updated. -/
def membersPUT (db : DB) (session : Option Session) (groupId memberId : Nat)
    (role : GroupRole) : MemberUpdateResponse × DB :=
  match session with
  | none => (⟨401, none⟩, db)
  | some s =>
    if !(checkGroupAdmin db groupId s.userId) then (⟨403, none⟩, db)
    else
      match db.groupUsers.find? (fun gu => gu.groupId == groupId && gu.userId == memberId) with
      | none => (⟨404, none⟩, db)
      | some member =>
        if ((db.users.find? (fun u => u.id == memberId)).any
              (fun u => u.role == UserRole.SUPER_ADMIN))
            && !((db.users.find? (fun u => u.id == s.userId)).any
              (fun u => u.role == UserRole.SUPER_ADMIN)) then
          (⟨403, none⟩, db)
        else if member.role == GroupRole.ADMIN && role == GroupRole.MEMBER
            && ((db.groupUsers.filter
                  (fun gu => gu.groupId == groupId && gu.role == GroupRole.ADMIN)).length == 1) then
          (⟨400, none⟩, db)
        else
          (⟨200, some { member with role := role }⟩,
           { db with
               groupUsers := db.groupUsers.map
                 (fun gu => if gu.id == member.id then { gu with role := role } else gu) })

/-- The DELETE handler of the member route: same guards as the PUT handler,
with the last-ADMIN protection firing on any removal of an ADMIN member when
the group has exactly one ADMIN. -/
def membersDELETE (db : DB) (session : Option Session) (groupId memberId : Nat) :
    Nat × DB :=
  match session with
  | none => (401, db)
  | some s =>
    if !(checkGroupAdmin db groupId s.userId) then (403, db)
    else
      match db.groupUsers.find? (fun gu => gu.groupId == groupId && gu.userId == memberId) with
      | none => (404, db)
      | some member =>
        if ((db.users.find? (fun u => u.id == memberId)).any
              (fun u => u.role == UserRole.SUPER_ADMIN))
            && !((db.users.find? (fun u => u.id == s.userId)).any
              (fun u => u.role == UserRole.SUPER_ADMIN)) then
          (403, db)
        else if member.role == GroupRole.ADMIN
            && ((db.groupUsers.filter
                  (fun gu => gu.groupId == groupId && gu.role == GroupRole.ADMIN)).length == 1) then
          (400, db)
        else
          (200, { db with groupUsers := db.groupUsers.filter (fun gu => gu.id != member.id) })

/-- The sequence of `prisma.groupUser.create` calls issued by the add-members
route, one row per requested user, with consecutively drawn fresh ids. -/
def createMembers (nid groupId : Nat) : List (Nat × GroupRole) → List GroupUser
  | [] => []
  | u :: rest =>
    { id := nid, userId := u.1, groupId := groupId, role := u.2 }
      :: createMembers (nid + 1) groupId rest

/-- The userIds of the group's existing members, as collected by the
add-members route before filtering. -/
def existingUserIds (db : DB) (groupId : Nat) : List Nat :=
  (db.groupUsers.filter (fun gu => gu.groupId == groupId)).map (fun gu => gu.userId)

/-- Response of the add-members route. -/
structure AddMembersResponse where
  status : Nat
  members : List GroupUser
deriving DecidableEq, Repr

/-- The POST handler of the group-members route: 401, 403 unless the caller
is a group admin, 404 when the group is missing; users already members are
filtered out silently, an empty remainder is answered with 400, otherwise
the remaining users are inserted and reported with 201. -/
def membersPOST (db : DB) (session : Option Session) (groupId : Nat)
    (users : List (Nat × GroupRole)) : AddMembersResponse × DB :=
  match session with
  | none => (⟨401, []⟩, db)
  | some s =>
    if !(checkGroupAdmin db groupId s.userId) then (⟨403, []⟩, db)
    else if (db.groups.find? (fun g => g.id == groupId)).isNone then (⟨404, []⟩, db)
    else
      let newUsers := users.filter (fun u => !((existingUserIds db groupId).contains u.1))
      if newUsers.length == 0 then (⟨400, []⟩, db)
      else
        let created := createMembers db.nextId groupId newUsers
        (⟨201, created⟩,
         { db with
             nextId := db.nextId + created.length,
             groupUsers := db.groupUsers ++ created })

/-- A concrete database for the last-admin scenarios: Alice (global USER) is
the sole ADMIN of group 10, and Bob is a SUPER_ADMIN caller. -/
def dbC3 : DB :=
  { emptyDB with
      nextId := 200,
      users := [⟨1, "alice@x.com", "Alice", "pw", UserRole.USER⟩,
                ⟨2, "bob@x.com", "Bob", "pw", UserRole.SUPER_ADMIN⟩],
      groups := [⟨10, "Ops", ""⟩],
      groupUsers := [⟨100, 1, 10, GroupRole.ADMIN⟩] }

/-- Counterexample to claim C3: demoting or removing the sole ADMIN of group
10 is rejected with status 400, not 409 Conflict as claimed (the membership
is indeed left unchanged, and the rejection does apply to a SUPER_ADMIN
caller). -/
theorem C3_counterexample :
    (membersPUT dbC3 (some ⟨2, UserRole.SUPER_ADMIN⟩) 10 1 GroupRole.MEMBER).1.status = 400 ∧
    (membersPUT dbC3 (some ⟨2, UserRole.SUPER_ADMIN⟩) 10 1 GroupRole.MEMBER).2 = dbC3 ∧
    (membersDELETE dbC3 (some ⟨2, UserRole.SUPER_ADMIN⟩) 10 1).1 = 400 ∧
    (membersDELETE dbC3 (some ⟨2, UserRole.SUPER_ADMIN⟩) 10 1).2 = dbC3 ∧
    (400 : Nat) ≠ 409 := by decide

/-- Claim C3 as amended: demoting the sole ADMIN of a group to MEMBER, or
removing it, through the member routes is rejected with 400 Bad Request (not
409) and leaves the database unchanged, for every caller that passes the
admin check — including SUPER_ADMIN callers, for whom the guard is not
skipped. -/
theorem C3_amended (db : DB) (s : Session) (groupId memberId : Nat) (member : GroupUser)
    (hauth : checkGroupAdmin db groupId s.userId = true)
    (hmem : db.groupUsers.find?
        (fun gu => gu.groupId == groupId && gu.userId == memberId) = some member)
    (hrole : member.role = GroupRole.ADMIN)
    (hguard : (((db.users.find? (fun u => u.id == memberId)).any
            (fun u => u.role == UserRole.SUPER_ADMIN))
          && !((db.users.find? (fun u => u.id == s.userId)).any
            (fun u => u.role == UserRole.SUPER_ADMIN))) = false)
    (hlast : (db.groupUsers.filter
        (fun gu => gu.groupId == groupId && gu.role == GroupRole.ADMIN)).length = 1) :
    membersPUT db (some s) groupId memberId GroupRole.MEMBER = (⟨400, none⟩, db) ∧
    membersDELETE db (some s) groupId memberId = (400, db) := by
  constructor
  · simp only [membersPUT, hauth, Bool.not_true, Bool.false_eq_true, if_false, hmem]
    rw [hguard]
    simp [hrole, hlast]
  · simp only [membersDELETE, hauth, Bool.not_true, Bool.false_eq_true, if_false, hmem]
    rw [hguard]
    simp [hrole, hlast]

/-- Witness for the amended C3 on `dbC3` with the SUPER_ADMIN caller. -/
theorem C3_amended_witness :
    membersPUT dbC3 (some ⟨2, UserRole.SUPER_ADMIN⟩) 10 1 GroupRole.MEMBER
        = (⟨400, none⟩, dbC3) ∧
    membersDELETE dbC3 (some ⟨2, UserRole.SUPER_ADMIN⟩) 10 1 = (400, dbC3) :=
  C3_amended dbC3 ⟨2, UserRole.SUPER_ADMIN⟩ 10 1 ⟨100, 1, 10, GroupRole.ADMIN⟩
    (by decide) (by decide) (by decide) (by decide) (by decide)

theorem createMembers_map_userId (nid groupId : Nat) (l : List (Nat × GroupRole)) :
    (createMembers nid groupId l).map (fun m => m.userId) = l.map (fun u => u.1) := by
  induction l generalizing nid with
  | nil => rfl
  | cons hd tl ih => simp [createMembers, ih]

theorem createMembers_groupId_eq (nid groupId : Nat) (l : List (Nat × GroupRole)) :
    ∀ m ∈ createMembers nid groupId l, m.groupId = groupId := by
  induction l generalizing nid with
  | nil => simp [createMembers]
  | cons hd tl ih =>
    intro m hm
    simp only [createMembers, List.mem_cons] at hm
    rcases hm with h | h
    · subst h; rfl
    · exact ih (nid + 1) m h

theorem createMembers_filter_group (nid groupId : Nat) (l : List (Nat × GroupRole)) :
    (createMembers nid groupId l).filter (fun gu => gu.groupId == groupId)
      = createMembers nid groupId l := by
  rw [List.filter_eq_self]
  intro m hm
  simp [createMembers_groupId_eq nid groupId l m hm]

/-- A concrete database for the add-members scenarios: Alice (global USER)
is the ADMIN of group 10 and user 3 exists but is no member yet. -/
def dbC7 : DB :=
  { emptyDB with
      nextId := 300,
      users := [⟨1, "a@x.com", "A", "pw", UserRole.USER⟩,
                ⟨3, "c@x.com", "C", "pw", UserRole.USER⟩],
      groups := [⟨10, "Ops", ""⟩],
      groupUsers := [⟨100, 1, 10, GroupRole.ADMIN⟩] }

/-- Counterexample to claim C7: adding only already-present members is
answered with 400 Bad Request, not Conflict (409) as claimed, and the
response carries no alreadyMember report (only the created rows, here
none). -/
theorem C7_counterexample :
    (membersPOST dbC7 (some ⟨1, UserRole.USER⟩) 10 [(1, GroupRole.MEMBER)]).1.status = 400 ∧
    (membersPOST dbC7 (some ⟨1, UserRole.USER⟩) 10 [(1, GroupRole.MEMBER)]).2 = dbC7 ∧
    (400 : Nat) ≠ 409 := by decide

/-- Claim C7 as amended: actors already members are silently filtered out —
neither duplicated nor errored, but also not reported back; when at least
one actor is new, the call inserts exactly the new actors, and an immediate
second call with the same actor list creates zero rows, leaves the
membership set unchanged, and is rejected with 400 Bad Request (the code
returns 400, not a 409 Conflict, when the created set would be empty). -/
theorem C7_amended (db : DB) (s : Session) (groupId : Nat)
    (users : List (Nat × GroupRole))
    (hauth : checkGroupAdmin db groupId s.userId = true)
    (hgroup : (db.groups.find? (fun g => g.id == groupId)).isNone = false)
    (hnew : users.filter (fun u => !((existingUserIds db groupId).contains u.1)) ≠ []) :
    ∃ db',
      membersPOST db (some s) groupId users
        = (⟨201, createMembers db.nextId groupId
              (users.filter (fun u => !((existingUserIds db groupId).contains u.1)))⟩, db') ∧
      db'.groupUsers = db.groupUsers ++ createMembers db.nextId groupId
              (users.filter (fun u => !((existingUserIds db groupId).contains u.1))) ∧
      (∀ m ∈ createMembers db.nextId groupId
              (users.filter (fun u => !((existingUserIds db groupId).contains u.1))),
          ¬ m.userId ∈ existingUserIds db groupId) ∧
      membersPOST db' (some s) groupId users = (⟨400, []⟩, db') := by
  have hlen : ((users.filter
      (fun u => !((existingUserIds db groupId).contains u.1))).length == 0) = false := by
    simp only [beq_eq_false_iff_ne, ne_eq, List.length_eq_zero]
    exact hnew
  refine ⟨{ db with
      nextId := db.nextId + (createMembers db.nextId groupId
        (users.filter (fun u => !((existingUserIds db groupId).contains u.1)))).length,
      groupUsers := db.groupUsers ++ createMembers db.nextId groupId
        (users.filter (fun u => !((existingUserIds db groupId).contains u.1))) },
    ?_, rfl, ?_, ?_⟩
  · simp only [membersPOST, hauth, Bool.not_true, Bool.false_eq_true, if_false, hgroup, hlen]
  · intro m hm
    intro hmem
    have h1 : m.userId ∈ (users.filter
        (fun u => !((existingUserIds db groupId).contains u.1))).map (fun u => u.1) := by
      rw [← createMembers_map_userId db.nextId groupId]
      exact List.mem_map_of_mem _ hm
    rcases List.mem_map.mp h1 with ⟨u, hu, hueq⟩
    rcases List.mem_filter.mp hu with ⟨_, hpred⟩
    rw [hueq] at hpred
    simp only [Bool.not_eq_true', List.elem_eq_mem, decide_eq_false_iff_not] at hpred
    exact hpred hmem
  · -- the second call: every requested actor is now already a member
    set N := users.filter (fun u => !((existingUserIds db groupId).contains u.1)) with hN
    set created := createMembers db.nextId groupId N with hcreated
    set db' : DB :=
      { db with
          nextId := db.nextId + created.length,
          groupUsers := db.groupUsers ++ created } with hdb'
    have husers : db'.users = db.users := rfl
    have hauth' : checkGroupAdmin db' groupId s.userId = true := by
      rw [checkGroupAdmin] at hauth ⊢
      rw [husers]
      by_cases hsa : ((db.users.find? (fun u => u.id == s.userId)).any
          (fun u => u.role == UserRole.SUPER_ADMIN)) = true
      · rw [if_pos hsa]
      · rw [if_neg hsa] at hauth ⊢
        show ((db.groupUsers ++ created).find?
          (fun gu => gu.userId == s.userId && gu.groupId == groupId
                       && gu.role == GroupRole.ADMIN)).isSome = true
        rw [List.find?_append]
        cases hfind : db.groupUsers.find?
            (fun gu => gu.userId == s.userId && gu.groupId == groupId
                         && gu.role == GroupRole.ADMIN) with
        | none => rw [hfind] at hauth; simp at hauth
        | some x => simp [Option.or, hfind]
    have hgroup' : (db'.groups.find? (fun g => g.id == groupId)).isNone = false := hgroup
    have hE' : existingUserIds db' groupId
        = existingUserIds db groupId ++ N.map (fun u => u.1) := by
      show ((db.groupUsers ++ created).filter
          (fun gu => gu.groupId == groupId)).map (fun gu => gu.userId)
        = existingUserIds db groupId ++ N.map (fun u => u.1)
      rw [List.filter_append, List.map_append, hcreated, createMembers_filter_group,
        createMembers_map_userId]
      rfl
    have hN' : users.filter (fun u => !((existingUserIds db' groupId).contains u.1)) = [] := by
      rw [List.filter_eq_nil_iff]
      intro u hu
      simp only [Bool.not_eq_true', List.elem_eq_mem, decide_eq_false_iff_not,
        Decidable.not_not]
      rw [hE']
      rw [List.mem_append]
      by_cases hin : u.1 ∈ existingUserIds db groupId
      · exact Or.inl hin
      · right
        apply List.mem_map_of_mem
        rw [hN]
        apply List.mem_filter.mpr
        refine ⟨hu, ?_⟩
        simp only [Bool.not_eq_true', List.elem_eq_mem, decide_eq_false_iff_not]
        exact hin
    simp only [membersPOST, hauth', Bool.not_true, Bool.false_eq_true, if_false, hgroup', hN']
    simp

/-- A request list mixing one new actor (3) and one already-present actor (1). -/
def c7users : List (Nat × GroupRole) := [(3, GroupRole.MEMBER), (1, GroupRole.MEMBER)]

/-- Witness for the amended C7 on `dbC7`: adding `c7users` inserts only the
new actor, and the repeated call creates nothing and is answered 400. -/
theorem C7_amended_witness :
    ∃ db',
      membersPOST dbC7 (some ⟨1, UserRole.USER⟩) 10 c7users
        = (⟨201, createMembers dbC7.nextId 10
              (c7users.filter (fun u => !((existingUserIds dbC7 10).contains u.1)))⟩, db') ∧
      db'.groupUsers = dbC7.groupUsers ++ createMembers dbC7.nextId 10
              (c7users.filter (fun u => !((existingUserIds dbC7 10).contains u.1))) ∧
      (∀ m ∈ createMembers dbC7.nextId 10
              (c7users.filter (fun u => !((existingUserIds dbC7 10).contains u.1))),
          ¬ m.userId ∈ existingUserIds dbC7 10) ∧
      membersPOST db' (some ⟨1, UserRole.USER⟩) 10 c7users = (⟨400, []⟩, db') :=
  C7_amended dbC7 ⟨1, UserRole.USER⟩ 10 c7users (by decide) (by decide) (by decide)

/-- The GET handler of the groups route is read-only; the POST handler
creates a group and makes the creator its ADMIN member. Only SUPER_ADMIN
and ADMIN (global roles, read from the session token) may create groups. -/
def groupsPOST (db : DB) (session : Option Session) (name description : String) :
    Nat × DB :=
  match session with
  | none => (401, db)
  | some s =>
    if s.role != UserRole.SUPER_ADMIN && s.role != UserRole.ADMIN then (403, db)
    else
      let group : Group := { id := db.nextId, name := name, description := description }
      let db1 := { db with nextId := db.nextId + 1, groups := db.groups ++ [group] }
      let membership : GroupUser :=
        { id := db1.nextId, userId := s.userId, groupId := group.id, role := GroupRole.ADMIN }
      (201,
       { db1 with
           nextId := db1.nextId + 1,
           groupUsers := db1.groupUsers ++ [membership] })

/-- Input of the user-update route; absent optional fields are `none` (the
zod schema rejects empty strings for the present ones, so the JavaScript
falsiness checks coincide with presence). -/
structure UserUpdateInput where
  name : Option String
  email : Option String
  password : Option String
  role : Option UserRole
  groups : Option (List (Nat × GroupRole))
deriving DecidableEq, Repr

/-- The `prisma.groupUser.create` calls of the user-update route: one
membership per requested (group, role) pair for the fixed user. -/
def createUserGroups (nid userId : Nat) : List (Nat × GroupRole) → List GroupUser
  | [] => []
  | g :: rest =>
    { id := nid, userId := userId, groupId := g.1, role := g.2 }
      :: createUserGroups (nid + 1) userId rest

/-- The PUT handler of the user route: only SUPER_ADMIN may edit another
user; a self-edit ignores the requested global role; a duplicate email is
rejected with 400; when `groups` is present and the caller's session role is
SUPER_ADMIN, all existing memberships of the user are deleted and the
requested ones created — with no last-admin guard. Password hashing is
abstracted. A missing target user makes the prisma update throw, surfacing
as 500. -/
def usersPUT (db : DB) (session : Option Session) (userId : Nat)
    (input : UserUpdateInput) : Nat × DB :=
  match session with
  | none => (401, db)
  | some s =>
    if s.role != UserRole.SUPER_ADMIN && s.userId != userId then (403, db)
    else
      let isSelfEdit := s.userId == userId
      if input.email.any
          (fun e => (db.users.find? (fun u => u.email == e && u.id != userId)).isSome) then
        (400, db)
      else
        let finalRole := if isSelfEdit then none else input.role
        match db.users.find? (fun u => u.id == userId) with
        | none => (500, db)
        | some _ =>
          let db1 :=
            { db with
                users := db.users.map (fun u =>
                  if u.id == userId then
                    { u with
                        name := input.name.getD u.name,
                        email := input.email.getD u.email,
                        password := input.password.getD u.password,
                        role := finalRole.getD u.role }
                  else u) }
          match input.groups with
          | some gs =>
            if s.role == UserRole.SUPER_ADMIN then
              let db2 :=
                { db1 with
                    groupUsers := db1.groupUsers.filter (fun gu => gu.userId != userId) }
              let created := createUserGroups db2.nextId userId gs
              (200,
               { db2 with
                   nextId := db2.nextId + created.length,
                   groupUsers := db2.groupUsers ++ created })
            else (200, db1)
          | none => (200, db1)

/-- The spec's standing invariant (section 8): every group with at least one
membership has at least one ADMIN membership. -/
def groupAdminInvariant (db : DB) : Prop :=
  ∀ g ∈ db.groups,
    (db.groupUsers.filter (fun gu => gu.groupId == g.id)).length ≥ 1 →
      (db.groupUsers.filter
        (fun gu => gu.groupId == g.id && gu.role == GroupRole.ADMIN)).length ≥ 1

/-- State after registering Alice into the empty database: Alice (id 1) is
SUPER_ADMIN and sole ADMIN of the default group (id 2). -/
def c2Step1 : DB :=
  (registerPOST emptyDB ⟨"Alice Admin", "alice@example.com", "password123"⟩).2

/-- State after also registering Bob (id 4, global USER). -/
def c2Step2 : DB := (registerPOST c2Step1 ⟨"Bob", "bob@example.com", "hunter2aa"⟩).2

/-- State after Alice adds Bob to the default group as MEMBER. -/
def c2Step3 : DB :=
  (membersPOST c2Step2 (some ⟨1, UserRole.SUPER_ADMIN⟩) 2 [(4, GroupRole.MEMBER)]).2

/-- State after Alice updates her own account with an empty group list: the
route deletes every membership of hers, including her sole-ADMIN row. -/
def c2Step4 : DB :=
  (usersPUT c2Step3 (some ⟨1, UserRole.SUPER_ADMIN⟩) 1
    ⟨none, none, none, none, some []⟩).2

/-- Claim C2 is violated by the code: the listed sequence of accepted
operations (register Alice, register Bob, add Bob as MEMBER, update Alice
with an empty group reassignment) reaches a state in which the default group
still has one membership (Bob, MEMBER) but zero ADMIN memberships — the
user-update group reassignment path deletes the sole admin's membership with
no last-admin guard, unlike the member routes. -/
theorem C2_violation :
    (registerPOST emptyDB ⟨"Alice Admin", "alice@example.com", "password123"⟩).1.status = 201 ∧
    (registerPOST c2Step1 ⟨"Bob", "bob@example.com", "hunter2aa"⟩).1.status = 201 ∧
    (membersPOST c2Step2 (some ⟨1, UserRole.SUPER_ADMIN⟩) 2 [(4, GroupRole.MEMBER)]).1.status = 201 ∧
    (usersPUT c2Step3 (some ⟨1, UserRole.SUPER_ADMIN⟩) 1
        ⟨none, none, none, none, some []⟩).1 = 200 ∧
    (∃ g ∈ c2Step4.groups,
        (c2Step4.groupUsers.filter (fun gu => gu.groupId == g.id)).length ≥ 1 ∧
        (c2Step4.groupUsers.filter
          (fun gu => gu.groupId == g.id && gu.role == GroupRole.ADMIN)).length = 0) ∧
    ¬ groupAdminInvariant c2Step4 := by
  refine ⟨by decide, by decide, by decide, by decide, ?_, ?_⟩
  · exact ⟨⟨2, "Groupe principal",
      "Groupe par défaut créé à l'initialisation du système"⟩, by decide, by decide, by decide⟩
  · intro h
    have := h ⟨2, "Groupe principal",
      "Groupe par défaut créé à l'initialisation du système"⟩ (by decide) (by decide)
    revert this
    decide

/-- From `checkGroupAdminAccess` in the notification-config route:
SUPER_ADMIN (session role) always passes; otherwise the config is looked up
(missing yields false) and the caller must hold an ADMIN membership in its
group. -/
def checkGroupAdminAccess (db : DB) (notificationId userId : Nat)
    (isSuperAdmin : Bool) : Bool :=
  if isSuperAdmin then true
  else
    match db.notificationConfigs.find? (fun c => c.id == notificationId) with
    | none => false
    | some cfg =>
      (db.groupUsers.find?
        (fun gu => gu.userId == userId && gu.groupId == cfg.groupId
                     && gu.role == GroupRole.ADMIN)).isSome

/-- The validated body of the notification-config PUT route: the zod
discriminated union ties the declared type to the matching sub-config
shape, so the sub-config input is a sum. -/
inductive NotifSubInput
  | email (recipients : List String)
  | webhook (url : String) (headers payload : List (String × String))
deriving DecidableEq, Repr

/-- The declared channel type carried by a `NotifSubInput`. -/
def NotifSubInput.channel : NotifSubInput → ChannelType
  | .email _ => ChannelType.EMAIL
  | .webhook _ _ _ => ChannelType.WEBHOOK

/-- The PUT handler of the notification-config route. Each prisma call is a
separate awaited write with no surrounding transaction, so a thrown write
leaves the earlier writes committed; `subCreateFails` injects a failure into
the `create` of the new sub-config (the throw propagates to the route's
catch block, which answers 500 with the state as already written). -/
def notificationPUT (db : DB) (session : Option Session) (notificationId : Nat)
    (name : String) (groupId : Nat) (sub : NotifSubInput) (subCreateFails : Bool) :
    Nat × DB :=
  match session with
  | none => (401, db)
  | some s =>
    if !(checkGroupAdminAccess db notificationId s.userId
          (s.role == UserRole.SUPER_ADMIN)) then
      (403, db)
    else
      match db.notificationConfigs.find? (fun c => c.id == notificationId) with
      | none => (404, db)
      | some existingConfig =>
        let existingEmail :=
          db.emailConfigs.find? (fun e => e.notificationConfigId == notificationId)
        let existingWebhook :=
          db.webhookConfigs.find? (fun w => w.notificationConfigId == notificationId)
        let db1 :=
          { db with
              notificationConfigs := db.notificationConfigs.map (fun c =>
                if c.id == notificationId then
                  { c with name := name, groupId := groupId, type := sub.channel }
                else c) }
        match sub with
        | .email recipients =>
          let db2 :=
            if existingConfig.type == ChannelType.WEBHOOK && existingWebhook.isSome then
              { db1 with
                  webhookConfigs := db1.webhookConfigs.filter
                    (fun w => w.notificationConfigId != notificationId) }
            else db1
          match existingEmail with
          | some _ =>
            (200,
             { db2 with
                 emailConfigs := db2.emailConfigs.map (fun e =>
                   if e.notificationConfigId == notificationId then
                     { e with recipients := recipients }
                   else e) })
          | none =>
            if subCreateFails then (500, db2)
            else
              (200,
               { db2 with
                   nextId := db2.nextId + 1,
                   emailConfigs := db2.emailConfigs
                     ++ [⟨db2.nextId, notificationId, recipients⟩] })
        | .webhook url headers payload =>
          let db2 :=
            if existingConfig.type == ChannelType.EMAIL && existingEmail.isSome then
              { db1 with
                  emailConfigs := db1.emailConfigs.filter
                    (fun e => e.notificationConfigId != notificationId) }
            else db1
          match existingWebhook with
          | some _ =>
            (200,
             { db2 with
                 webhookConfigs := db2.webhookConfigs.map (fun w =>
                   if w.notificationConfigId == notificationId then
                     { w with url := url, headers := headers, payload := payload }
                   else w) })
          | none =>
            if subCreateFails then (500, db2)
            else
              (200,
               { db2 with
                   nextId := db2.nextId + 1,
                   webhookConfigs := db2.webhookConfigs
                     ++ [⟨db2.nextId, notificationId, url, headers, payload⟩] })

/-- A concrete database for the type-switch scenario: config 7 (group 2) is
of type EMAIL with a live email sub-config; Alice is a SUPER_ADMIN. -/
def dbC5 : DB :=
  { emptyDB with
      nextId := 400,
      users := [⟨1, "a@x.com", "Alice", "pw", UserRole.SUPER_ADMIN⟩],
      groups := [⟨2, "G", ""⟩],
      notificationConfigs := [⟨7, "cfg", 2, ChannelType.EMAIL⟩],
      emailConfigs := [⟨70, 7, ["ops@example.com"]⟩] }

/-- Claim C5 is violated by the code: switching config 7 from EMAIL to
WEBHOOK when the create of the new webhook sub-config fails answers 500 with
the old email sub-config already deleted (and the declared type already
switched), leaving the config with zero live sub-configs — the two writes
are separate awaited prisma calls, not one atomic unit. -/
theorem C5_bug :
    (notificationPUT dbC5 (some ⟨1, UserRole.SUPER_ADMIN⟩) 7 "cfg" 2
        (NotifSubInput.webhook "https://hooks.example.com" [] []) true).1 = 500 ∧
    ((notificationPUT dbC5 (some ⟨1, UserRole.SUPER_ADMIN⟩) 7 "cfg" 2
        (NotifSubInput.webhook "https://hooks.example.com" [] []) true).2.emailConfigs.find?
      (fun e => e.notificationConfigId == 7)) = none ∧
    ((notificationPUT dbC5 (some ⟨1, UserRole.SUPER_ADMIN⟩) 7 "cfg" 2
        (NotifSubInput.webhook "https://hooks.example.com" [] []) true).2.webhookConfigs.find?
      (fun w => w.notificationConfigId == 7)) = none ∧
    ((notificationPUT dbC5 (some ⟨1, UserRole.SUPER_ADMIN⟩) 7 "cfg" 2
        (NotifSubInput.webhook "https://hooks.example.com" [] []) true).2.notificationConfigs.find?
      (fun c => c.id == 7)) = some ⟨7, "cfg", 2, ChannelType.WEBHOOK⟩ ∧
    (dbC5.emailConfigs.find? (fun e => e.notificationConfigId == 7)).isSome = true := by
  decide

/-- Outcome of one channel-adapter invocation (the adapters are external
collaborators; a thrown delivery error carries its message). -/
inductive AdapterResult
  | ok
  | fail (errMsg : String)
deriving DecidableEq, Repr

/-- The validated body of the send route. -/
structure SendInput where
  notificationConfigId : Nat
  serverId : Nat
  probeId : Option Nat
  level : Level
  title : String
  message : String
deriving DecidableEq, Repr

/-- Response of the send route: the embedded notification on success, the
error message on delivery failure. -/
structure SendResponse where
  status : Nat
  notification : Option Notification
  error : Option String
deriving DecidableEq, Repr

/-- The `prisma.notification.create` call of the send route: a fresh row in
the initial PENDING state. -/
def createdNotification (db : DB) (input : SendInput) : Notification :=
  { id := db.nextId, serverId := input.serverId, probeId := input.probeId,
    title := input.title, message := input.message, level := input.level,
    notificationConfigId := input.notificationConfigId,
    status := NotificationStatus.PENDING, statusDetails := none, sentAt := false }

/-- The POST handler of the send route (it performs no session check): 404
when the config or the server is missing; otherwise a Notification row is
created, the channel adapter for the declared type is invoked (a missing
matching sub-config throws the incomplete-configuration error instead), and
the row is driven to SENT — answered 200 with the created row embedded — or
to FAILED with the error message recorded, answered 500 with the message. -/
def sendPOST (db : DB) (input : SendInput) (adapter : AdapterResult) :
    SendResponse × DB :=
  match db.notificationConfigs.find? (fun c => c.id == input.notificationConfigId) with
  | none => (⟨404, none, none⟩, db)
  | some cfg =>
    if (db.servers.find? (fun s => s.id == input.serverId)).isNone then
      (⟨404, none, none⟩, db)
    else
      let notification := createdNotification db input
      let db1 := { db with
                     nextId := db.nextId + 1,
                     notifications := db.notifications ++ [notification] }
      let dispatch : Except String Unit :=
        if cfg.type == ChannelType.EMAIL
            && (db.emailConfigs.find? (fun e => e.notificationConfigId == cfg.id)).isSome then
          match adapter with | .ok => .ok () | .fail e => .error e
        else if cfg.type == ChannelType.WEBHOOK
            && (db.webhookConfigs.find? (fun w => w.notificationConfigId == cfg.id)).isSome then
          match adapter with | .ok => .ok () | .fail e => .error e
        else
          .error "Type de notification non pris en charge ou configuration incomplète"
      match dispatch with
      | .ok _ =>
        (⟨200, some notification, none⟩,
         { db1 with
             notifications := db1.notifications.map (fun n =>
               if n.id == notification.id then
                 { n with status := NotificationStatus.SENT, sentAt := true }
               else n) })
      | .error e =>
        (⟨500, none, some e⟩,
         { db1 with
             notifications := db1.notifications.map (fun n =>
               if n.id == notification.id then
                 { n with status := NotificationStatus.FAILED, statusDetails := some e }
               else n) })

theorem map_update_of_fresh (f : Notification → Notification) (l : List Notification)
    (nid : Nat) (h : ∀ n ∈ l, n.id < nid) :
    l.map (fun n => if n.id == nid then f n else n) = l := by
  induction l with
  | nil => rfl
  | cons hd tl ih =>
    have hhd : (hd.id == nid) = false := by
      have := h hd (List.mem_cons_self hd tl)
      simp only [beq_eq_false_iff_ne, ne_eq]
      omega
    simp only [List.map_cons, hhd, Bool.false_eq_true, if_false, List.cons.injEq, true_and]
    exact ih (fun n hn => h n (List.mem_cons_of_mem hd hn))

theorem sendPOST_appends (db : DB) (input : SendInput) (adapter : AdapterResult)
    (cfg : NotificationConfig)
    (hcfg : db.notificationConfigs.find?
        (fun c => c.id == input.notificationConfigId) = some cfg)
    (hsrv : (db.servers.find? (fun s => s.id == input.serverId)).isNone = false)
    (hfresh : ∀ n ∈ db.notifications, n.id < db.nextId) :
    ∃ n : Notification,
      sendPOST db input adapter
        = ((sendPOST db input adapter).1,
           { db with nextId := db.nextId + 1, notifications := db.notifications ++ [n] }) ∧
      n.id = db.nextId ∧
      (n.status = NotificationStatus.SENT ∨ n.status = NotificationStatus.FAILED) := by
  have hid : (createdNotification db input).id = db.nextId := rfl
  have hmap : ∀ f : Notification → Notification,
      (db.notifications ++ [createdNotification db input]).map
          (fun n => if n.id == (createdNotification db input).id then f n else n)
        = db.notifications ++ [f (createdNotification db input)] := by
    intro f
    simp only [hid, List.map_append]
    rw [map_update_of_fresh f db.notifications db.nextId hfresh]
    simp [createdNotification]
  simp only [sendPOST, hcfg, hsrv, Bool.false_eq_true, if_false]
  cases h1 : (cfg.type == ChannelType.EMAIL
      && (db.emailConfigs.find? (fun e => e.notificationConfigId == cfg.id)).isSome) with
  | true =>
    cases adapter with
    | ok =>
      exact ⟨{ createdNotification db input with
                 status := NotificationStatus.SENT, sentAt := true },
        by simp only [hmap]; rfl, rfl, Or.inl rfl⟩
    | fail e =>
      exact ⟨{ createdNotification db input with
                 status := NotificationStatus.FAILED, statusDetails := some e },
        by simp only [hmap]; rfl, rfl, Or.inr rfl⟩
  | false =>
    cases h2 : (cfg.type == ChannelType.WEBHOOK
        && (db.webhookConfigs.find? (fun w => w.notificationConfigId == cfg.id)).isSome) with
    | true =>
      cases adapter with
      | ok =>
        exact ⟨{ createdNotification db input with
                   status := NotificationStatus.SENT, sentAt := true },
          by simp only [hmap]; rfl, rfl, Or.inl rfl⟩
      | fail e =>
        exact ⟨{ createdNotification db input with
                   status := NotificationStatus.FAILED, statusDetails := some e },
          by simp only [hmap]; rfl, rfl, Or.inr rfl⟩
    | false =>
      exact ⟨{ createdNotification db input with
                 status := NotificationStatus.FAILED,
                 statusDetails := some "Type de notification non pris en charge ou configuration incomplète" },
        by simp only [hmap]; rfl, rfl, Or.inr rfl⟩

theorem sendPOST_live_adapter (db : DB) (input : SendInput) (cfg : NotificationConfig)
    (hcfg : db.notificationConfigs.find?
        (fun c => c.id == input.notificationConfigId) = some cfg)
    (hsrv : (db.servers.find? (fun s => s.id == input.serverId)).isNone = false)
    (hfresh : ∀ n ∈ db.notifications, n.id < db.nextId)
    (hlive : (cfg.type == ChannelType.EMAIL
          && (db.emailConfigs.find? (fun e => e.notificationConfigId == cfg.id)).isSome
        || cfg.type == ChannelType.WEBHOOK
          && (db.webhookConfigs.find? (fun w => w.notificationConfigId == cfg.id)).isSome)
        = true) :
    (∀ e, sendPOST db input (AdapterResult.fail e)
        = (⟨500, none, some e⟩,
           { db with
               nextId := db.nextId + 1,
               notifications := db.notifications
                 ++ [{ createdNotification db input with
                         status := NotificationStatus.FAILED,
                         statusDetails := some e }] })) ∧
    sendPOST db input AdapterResult.ok
        = (⟨200, some (createdNotification db input), none⟩,
           { db with
               nextId := db.nextId + 1,
               notifications := db.notifications
                 ++ [{ createdNotification db input with
                         status := NotificationStatus.SENT, sentAt := true }] }) := by
  have hid : (createdNotification db input).id = db.nextId := rfl
  have hmap : ∀ f : Notification → Notification,
      (db.notifications ++ [createdNotification db input]).map
          (fun n => if n.id == (createdNotification db input).id then f n else n)
        = db.notifications ++ [f (createdNotification db input)] := by
    intro f
    simp only [hid, List.map_append]
    rw [map_update_of_fresh f db.notifications db.nextId hfresh]
    simp [createdNotification]
  have hlive' := hlive
  rw [Bool.or_eq_true] at hlive'
  rcases hlive' with h1 | h2
  · constructor
    · intro e
      simp only [sendPOST, hcfg, hsrv, Bool.false_eq_true, if_false, h1]
      simp only [hmap]
      rfl
    · simp only [sendPOST, hcfg, hsrv, Bool.false_eq_true, if_false, h1]
      simp only [hmap]
      rfl
  · have htype : cfg.type = ChannelType.WEBHOOK := by
      have h2' := h2
      rw [Bool.and_eq_true] at h2'
      simpa using h2'.1
    have h1f : (cfg.type == ChannelType.EMAIL
        && (db.emailConfigs.find? (fun e => e.notificationConfigId == cfg.id)).isSome)
        = false := by
      simp [htype]
    constructor
    · intro e
      simp only [sendPOST, hcfg, hsrv, Bool.false_eq_true, if_false, h1f, h2]
      simp only [hmap]
      rfl
    · simp only [sendPOST, hcfg, hsrv, Bool.false_eq_true, if_false, h1f, h2]
      simp only [hmap]
      rfl

/-- A concrete database for the dispatch scenarios: config 7 (EMAIL, with a
live recipient list) and server 20 exist. -/
def dbC4 : DB :=
  { emptyDB with
      nextId := 500,
      groups := [⟨2, "G", ""⟩],
      servers := [⟨20, "srv", 1, [2]⟩],
      notificationConfigs := [⟨7, "cfg", 2, ChannelType.EMAIL⟩],
      emailConfigs := [⟨70, 7, ["ops@example.com"]⟩] }

/-- A valid send request referencing config 7 and server 20. -/
def c4input : SendInput := ⟨7, 20, none, Level.ERROR, "Down", "svc down"⟩

/-- Counterexample to claim C4: with the referenced config and server both
existing and the input valid, a failing SMTP adapter makes the send route
answer 500 with no Notification embedded — not a 200/201 success with the
persisted FAILED Notification. -/
theorem C4_counterexample :
    (sendPOST dbC4 c4input (AdapterResult.fail "SMTP connection refused")).1.status = 500 ∧
    (sendPOST dbC4 c4input (AdapterResult.fail "SMTP connection refused")).1.notification
        = none ∧
    (500 : Nat) ≠ 200 ∧ (500 : Nat) ≠ 201 := by decide

/-- Claim C4 as amended: when the referenced config and server exist, the
declared type has its live sub-config and the channel adapter fails, the
delivery failure is recorded on the persisted Notification (status FAILED,
statusDetails carrying the adapter's message) — but the HTTP response is 500
with the error message and no Notification embedded; only a successful
delivery is answered 200 with the created Notification embedded. -/
theorem C4_amended (db : DB) (input : SendInput) (e : String) (cfg : NotificationConfig)
    (hcfg : db.notificationConfigs.find?
        (fun c => c.id == input.notificationConfigId) = some cfg)
    (hsrv : (db.servers.find? (fun s => s.id == input.serverId)).isNone = false)
    (hfresh : ∀ n ∈ db.notifications, n.id < db.nextId)
    (hlive : (cfg.type == ChannelType.EMAIL
          && (db.emailConfigs.find? (fun x => x.notificationConfigId == cfg.id)).isSome
        || cfg.type == ChannelType.WEBHOOK
          && (db.webhookConfigs.find? (fun w => w.notificationConfigId == cfg.id)).isSome)
        = true) :
    (sendPOST db input (AdapterResult.fail e)).1 = ⟨500, none, some e⟩ ∧
    (sendPOST db input (AdapterResult.fail e)).2.notifications
      = db.notifications ++ [{ createdNotification db input with
            status := NotificationStatus.FAILED, statusDetails := some e }] ∧
    (sendPOST db input AdapterResult.ok).1
      = ⟨200, some (createdNotification db input), none⟩ := by
  have h := sendPOST_live_adapter db input cfg hcfg hsrv hfresh hlive
  refine ⟨?_, ?_, ?_⟩
  · rw [h.1 e]
  · rw [h.1 e]
  · rw [h.2]

/-- Witness for the amended C4 on `dbC4` with a failing SMTP adapter. -/
theorem C4_amended_witness :
    (sendPOST dbC4 c4input (AdapterResult.fail "SMTP connection refused")).1
        = ⟨500, none, some "SMTP connection refused"⟩ ∧
    (sendPOST dbC4 c4input (AdapterResult.fail "SMTP connection refused")).2.notifications
      = dbC4.notifications ++ [{ createdNotification dbC4 c4input with
            status := NotificationStatus.FAILED,
            statusDetails := some "SMTP connection refused" }] ∧
    (sendPOST dbC4 c4input AdapterResult.ok).1
      = ⟨200, some (createdNotification dbC4 c4input), none⟩ :=
  C4_amended dbC4 c4input "SMTP connection refused" ⟨7, "cfg", 2, ChannelType.EMAIL⟩
    (by decide) (by decide) (by decide) (by decide)

/-- Claim C6: a send invocation that reaches dispatch (the config and server
exist) creates exactly one new Notification record, which ends in a terminal
SENT or FAILED status — never PENDING — and a repeated identical invocation
creates a second, fresh record (the operation is not idempotent). -/
theorem C6_dispatch_record (db : DB) (input : SendInput) (adapter : AdapterResult)
    (cfg : NotificationConfig)
    (hcfg : db.notificationConfigs.find?
        (fun c => c.id == input.notificationConfigId) = some cfg)
    (hsrv : (db.servers.find? (fun s => s.id == input.serverId)).isNone = false)
    (hfresh : ∀ n ∈ db.notifications, n.id < db.nextId) :
    (∃ n, (sendPOST db input adapter).2.notifications = db.notifications ++ [n] ∧
        n.status ≠ NotificationStatus.PENDING ∧
        (n.status = NotificationStatus.SENT ∨ n.status = NotificationStatus.FAILED)) ∧
    (sendPOST (sendPOST db input adapter).2 input adapter).2.notifications.length
        = db.notifications.length + 2 := by
  obtain ⟨n, heq, hnid, hstat⟩ := sendPOST_appends db input adapter cfg hcfg hsrv hfresh
  have hdb2 := congrArg Prod.snd heq
  constructor
  · refine ⟨n, ?_, ?_, hstat⟩
    · rw [hdb2]
    · rcases hstat with h | h <;> simp [h]
  · have hcfg2 : (sendPOST db input adapter).2.notificationConfigs.find?
        (fun c => c.id == input.notificationConfigId) = some cfg := by
      rw [hdb2]; exact hcfg
    have hsrv2 : ((sendPOST db input adapter).2.servers.find?
        (fun s => s.id == input.serverId)).isNone = false := by
      rw [hdb2]; exact hsrv
    have hfresh2 : ∀ m ∈ (sendPOST db input adapter).2.notifications,
        m.id < (sendPOST db input adapter).2.nextId := by
      rw [hdb2]
      intro m hm
      rcases List.mem_append.mp hm with hold | hnew
      · exact Nat.lt_succ_of_lt (hfresh m hold)
      · have hmn : m = n := by simpa using hnew
        rw [hmn, hnid]
        exact Nat.lt_succ_self db.nextId
    obtain ⟨n2, heq2, _, _⟩ :=
      sendPOST_appends (sendPOST db input adapter).2 input adapter cfg hcfg2 hsrv2 hfresh2
    have hdb3 := congrArg Prod.snd heq2
    rw [hdb3]
    show ((sendPOST db input adapter).2.notifications ++ [n2]).length
        = db.notifications.length + 2
    rw [hdb2]
    show ((db.notifications ++ [n]) ++ [n2]).length = db.notifications.length + 2
    simp

/-- Witness for C6 on `dbC4` with a succeeding adapter. -/
theorem C6_dispatch_record_witness :
    (∃ n, (sendPOST dbC4 c4input AdapterResult.ok).2.notifications
        = dbC4.notifications ++ [n] ∧
        n.status ≠ NotificationStatus.PENDING ∧
        (n.status = NotificationStatus.SENT ∨ n.status = NotificationStatus.FAILED)) ∧
    (sendPOST (sendPOST dbC4 c4input AdapterResult.ok).2 c4input
        AdapterResult.ok).2.notifications.length
      = dbC4.notifications.length + 2 :=
  C6_dispatch_record dbC4 c4input AdapterResult.ok ⟨7, "cfg", 2, ChannelType.EMAIL⟩
    (by decide) (by decide) (by decide)

/-- The GET handler of the servers route: SUPER_ADMIN receives every server,
anyone else the servers attached to at least one of their groups (the
alphabetical ordering of the response is presentational and omitted). -/
def serversGET (db : DB) (session : Option Session) : Nat × List Server :=
  match session with
  | none => (401, [])
  | some s =>
    if s.role == UserRole.SUPER_ADMIN then (200, db.servers)
    else
      let groupIds := (db.groupUsers.filter (fun gu => gu.userId == s.userId)).map
        (fun gu => gu.groupId)
      (200, db.servers.filter (fun srv => srv.groupIds.any (fun gid => groupIds.contains gid)))

/-- The GET handler of the notification-configs route: SUPER_ADMIN receives
every config, anyone else the configs of their groups (the creation-date
ordering is presentational and omitted). -/
def notificationConfigsGET (db : DB) (session : Option Session) :
    Nat × List NotificationConfig :=
  match session with
  | none => (401, [])
  | some s =>
    if s.role == UserRole.SUPER_ADMIN then (200, db.notificationConfigs)
    else
      let groupIds := (db.groupUsers.filter (fun gu => gu.userId == s.userId)).map
        (fun gu => gu.groupId)
      (200, db.notificationConfigs.filter (fun c => groupIds.contains c.groupId))

/-- The spec's view contract (section 4.1), stated from the spec's words to
compare with the list handlers: SUPER_ADMIN always; otherwise at least one
membership in a group attached to the server. -/
def canViewServer (db : DB) (s : Session) (srv : Server) : Prop :=
  s.role = UserRole.SUPER_ADMIN
    ∨ ∃ gu ∈ db.groupUsers, gu.userId = s.userId ∧ gu.groupId ∈ srv.groupIds

/-- The spec's view contract for a notification config, whose only attached
group is its `groupId`. -/
def canViewNotificationConfig (db : DB) (s : Session) (c : NotificationConfig) : Prop :=
  s.role = UserRole.SUPER_ADMIN
    ∨ ∃ gu ∈ db.groupUsers, gu.userId = s.userId ∧ gu.groupId = c.groupId

/-- Claim C8: an authenticated actor's server and notification-config
listings contain a resource exactly when the resource is stored and the
spec's canView contract grants it: SUPER_ADMIN sees everything, anyone else
precisely the resources attached to at least one of their groups. -/
theorem C8_list_iff_canView (db : DB) (s : Session) :
    (∀ srv, srv ∈ (serversGET db (some s)).2
        ↔ (srv ∈ db.servers ∧ canViewServer db s srv)) ∧
    (∀ c, c ∈ (notificationConfigsGET db (some s)).2
        ↔ (c ∈ db.notificationConfigs ∧ canViewNotificationConfig db s c)) := by
  by_cases hsa : s.role = UserRole.SUPER_ADMIN
  · constructor
    · intro srv
      simp [serversGET, hsa, canViewServer]
    · intro c
      simp [notificationConfigsGET, hsa, canViewNotificationConfig]
  · have hsab : (s.role == UserRole.SUPER_ADMIN) = false := by simp [hsa]
    constructor
    · intro srv
      simp only [serversGET, hsab, Bool.false_eq_true, if_false, List.mem_filter]
      constructor
      · rintro ⟨hmem, hpred⟩
        refine ⟨hmem, Or.inr ?_⟩
        rcases List.any_eq_true.mp hpred with ⟨gid, hgid, hcont⟩
        have hgid' : gid ∈ (db.groupUsers.filter (fun gu => gu.userId == s.userId)).map
            (fun gu => gu.groupId) := by simpa using hcont
        rcases List.mem_map.mp hgid' with ⟨gu, hgu, hgueq⟩
        rcases List.mem_filter.mp hgu with ⟨hgumem, hguid⟩
        exact ⟨gu, hgumem, by simpa using hguid, by rw [hgueq]; exact hgid⟩
      · rintro ⟨hmem, hview⟩
        rcases hview with h | ⟨gu, hgumem, hguid, hgugrp⟩
        · exact absurd h hsa
        · refine ⟨hmem, List.any_eq_true.mpr ⟨gu.groupId, hgugrp, ?_⟩⟩
          simp only [List.elem_eq_mem, decide_eq_true_eq]
          exact List.mem_map_of_mem _ (List.mem_filter.mpr ⟨hgumem, by simp [hguid]⟩)
    · intro c
      simp only [notificationConfigsGET, hsab, Bool.false_eq_true, if_false, List.mem_filter]
      constructor
      · rintro ⟨hmem, hpred⟩
        refine ⟨hmem, Or.inr ?_⟩
        have hpred' : c.groupId ∈ (db.groupUsers.filter
            (fun gu => gu.userId == s.userId)).map (fun gu => gu.groupId) := by
          simpa using hpred
        rcases List.mem_map.mp hpred' with ⟨gu, hgu, hgueq⟩
        rcases List.mem_filter.mp hgu with ⟨hgumem, hguid⟩
        exact ⟨gu, hgumem, by simpa using hguid, hgueq⟩
      · rintro ⟨hmem, hview⟩
        rcases hview with h | ⟨gu, hgumem, hguid, hgugrp⟩
        · exact absurd h hsa
        · refine ⟨hmem, ?_⟩
          simp only [List.elem_eq_mem, decide_eq_true_eq]
          rw [← hgugrp]
          exact List.mem_map_of_mem _ (List.mem_filter.mpr ⟨hgumem, by simp [hguid]⟩)

/-- Witness for C8 on `dbC1`: Bob sees server 20 (attached to his group 3)
and does not see config 10 (in group 2, where he has no membership). -/
theorem C8_list_iff_canView_witness :
    ((⟨20, "srv", 1, [3]⟩ : Server) ∈ (serversGET dbC1 (some ⟨2, UserRole.USER⟩)).2
        ↔ ((⟨20, "srv", 1, [3]⟩ : Server) ∈ dbC1.servers
            ∧ canViewServer dbC1 ⟨2, UserRole.USER⟩ ⟨20, "srv", 1, [3]⟩)) ∧
    ((⟨10, "cfg", 2, ChannelType.EMAIL⟩ : NotificationConfig)
          ∈ (notificationConfigsGET dbC1 (some ⟨2, UserRole.USER⟩)).2
        ↔ ((⟨10, "cfg", 2, ChannelType.EMAIL⟩ : NotificationConfig)
              ∈ dbC1.notificationConfigs
            ∧ canViewNotificationConfig dbC1 ⟨2, UserRole.USER⟩
                ⟨10, "cfg", 2, ChannelType.EMAIL⟩)) :=
  ⟨(C8_list_iff_canView dbC1 ⟨2, UserRole.USER⟩).1 ⟨20, "srv", 1, [3]⟩,
   (C8_list_iff_canView dbC1 ⟨2, UserRole.USER⟩).2 ⟨10, "cfg", 2, ChannelType.EMAIL⟩⟩

end SrvMon
